import Mathlib

/-!
Verification of the escrow settlement state machine of the tact-escrow
repository.  The repository ships only the tests, deploy scripts and UI
utilities of the contract; the contract itself is specified in spec.md
(sections 3, 4 and 6), so the state machine below is modelled from the
spec and cross-checked against the constants pinned by the test suite
(exit codes, royalty examples, value thresholds).

Conventions: addresses and cells (wallet-code templates) are abstracted
as natural numbers; coin and token amounts are in smallest units
(nanoton for the native coin, so `ton 1 = 10^9`).
-/

namespace Escrow

/-- Addresses are abstract identifiers. -/
abbrev Addr := Nat

/-- Wallet-code templates (cells) are abstract identifiers. -/
abbrev Code := Nat

/-- Modelled from the spec: the Deal persistent state (spec section 3).
`buyerAddress = none` until successful funding; `assetAddress = none`
means the native coin; `tokenWalletTemplate` is present only for token
deals. -/
structure Deal where
  id : Nat
  sellerAddress : Addr
  guarantorAddress : Addr
  dealAmount : Nat
  guarantorRoyaltyPercent : Nat
  assetAddress : Option Addr
  tokenWalletTemplate : Option Code
  buyerAddress : Option Addr
deriving DecidableEq, Repr

/-- Modelled from the spec: `isFunded` is a boolean derived from
`buyerAddress` being set (spec section 3). -/
def Deal.isFunded (d : Deal) : Bool := d.buyerAddress.isSome

/-- Modelled from the spec: the stable numeric exit codes of section 6.
The spec's table gives no number for the `NotSeller` rejection, hence
the `Option`. -/
inductive ExitCode where
  | WrongFundAmount
  | AlreadyFunded
  | WrongAssetType
  | NotGuarantor
  | NotFunded
  | NotificationSenderMismatch
  | LowMessageValue
  | NotSeller
deriving DecidableEq, Repr

/-- Modelled from the spec: the numeric value of each exit code
(spec section 6 table). -/
def exitCodeNum : ExitCode → Option Nat
  | .WrongFundAmount => some 15301
  | .AlreadyFunded => some 33704
  | .WrongAssetType => some 52368
  | .NotGuarantor => some 21150
  | .NotFunded => some 14215
  | .NotificationSenderMismatch => some 37726
  | .LowMessageValue => some 5357
  | .NotSeller => none

/-- Nanoton units: `ton n` is `n` whole coins in smallest units. -/
def ton (n : Nat) : Nat := n * 1000000000

/-- Modelled from the spec: the pure royalty calculator (spec section 4.2),
`dealAmount * min(royaltyPercentPpm, 90000) / 100000`, truncating
integer division. -/
def calculateRoyaltyAmount (dealAmount royaltyPercentPpm : Nat) : Nat :=
  dealAmount * min royaltyPercentPpm 90000 / 100000

/-- Modelled from the spec: the `getCalculateRoyaltyAmount` read-only
query (spec section 6) applies the royalty calculator to the stored
deal fields. -/
def Deal.getCalculateRoyaltyAmount (d : Deal) : Nat :=
  calculateRoyaltyAmount d.dealAmount d.guarantorRoyaltyPercent

/-- Modelled from the spec: deterministic derivation of a token-holder's
wallet address from the asset's minter address, the holder address and
the wallet-code template (spec sections 4.3 and 9); abstracted as an
injective pairing. -/
def derivedWalletAddress (asset : Addr) (holder : Addr) (template : Code) : Addr :=
  Nat.pair asset (Nat.pair holder template)

/-- An outbound transfer scheduled by the state machine, at the Asset
Adapter level (spec section 4.3): recipient, amount, and the asset it is
denominated in (`none` = native coin). -/
structure Transfer where
  dest : Addr
  amount : Nat
  asset : Option Addr
deriving DecidableEq, Repr

/-- Result of handling one inbound message: either a synchronous
rejection with an exit code leaving the deal unchanged (spec section 7),
or acceptance with the post-state (`none` = the Deal destroyed itself)
and the list of outbound transfers scheduled. -/
inductive Outcome where
  | reject (code : ExitCode)
  | accept (newState : Option Deal) (outbound : List Transfer)
deriving DecidableEq, Repr

/-- Modelled from the spec: the inbound message kinds the claims concern
(spec section 6).  `funding` is the empty-bodied native funding call
with its attached value; `tokenNotification` carries the direct sender
of the message, the notified amount and the embedded (untrusted) `from`
field; `approve` and `cancel` carry sender and attached value. -/
inductive Msg where
  | funding (sender : Addr) (attachedValue : Nat)
  | tokenNotification (directSender : Addr) (notifiedAmount : Nat) (embeddedFrom : Addr)
  | updateWalletCode (sender : Addr) (newTemplate : Code)
  | approve (sender : Addr) (attachedValue : Nat)
  | cancel (sender : Addr) (attachedValue : Nat)
deriving DecidableEq, Repr

/-- Modelled from the spec: the attached-value sizing threshold of
`Approve` (spec sections 4.1 and 5): the attached value must cover the
processing cost of the two downstream transfers, which is larger for
token deals (two jetton-wallet hops) than for native deals.  Concrete
values chosen inside the bounds pinned by the test suite (a token-deal
approve with 0.05 coin attached is rejected and one with 0.11 accepted;
a native approve with 0.01 is rejected and one with 0.05 accepted). -/
def approveGasThreshold (d : Deal) : Nat :=
  match d.assetAddress with
  | some _ => 100000000
  | none => 20000000

/-- Modelled from the spec: the escrow state machine's handling of one
inbound message (spec section 4.1), with the failure checks applied in
the order the spec lists them.  `self` is the Deal contract's own
address (used to derive its own token wallet). -/
def escrowStep (self : Addr) (d : Deal) (m : Msg) : Outcome :=
  match m with
  | .funding sender attachedValue =>
    if d.isFunded then .reject .AlreadyFunded
    else if d.assetAddress.isSome then .reject .WrongAssetType
    else if attachedValue ≠ d.dealAmount then .reject .WrongFundAmount
    else .accept (some { d with buyerAddress := some sender }) []
  | .tokenNotification directSender notifiedAmount embeddedFrom =>
    if d.isFunded then .reject .AlreadyFunded
    else
      match d.assetAddress, d.tokenWalletTemplate with
      | some asset, some template =>
        if directSender ≠ derivedWalletAddress asset self template then
          .reject .NotificationSenderMismatch
        else if notifiedAmount ≠ d.dealAmount then .reject .WrongFundAmount
        else .accept (some { d with buyerAddress := some embeddedFrom }) []
      | _, _ => .reject .NotificationSenderMismatch
  | .updateWalletCode sender newTemplate =>
    if d.assetAddress.isNone then .reject .WrongAssetType
    else if sender ≠ d.sellerAddress then .reject .NotSeller
    else if d.isFunded then .reject .AlreadyFunded
    else .accept (some { d with tokenWalletTemplate := some newTemplate }) []
  | .approve sender attachedValue =>
    if sender ≠ d.guarantorAddress then .reject .NotGuarantor
    else if !d.isFunded then .reject .NotFunded
    else if attachedValue < approveGasThreshold d then .reject .LowMessageValue
    else
      .accept none
        [⟨d.sellerAddress, d.dealAmount - d.getCalculateRoyaltyAmount, d.assetAddress⟩,
         ⟨d.guarantorAddress, d.getCalculateRoyaltyAmount, d.assetAddress⟩]
  | .cancel sender _attachedValue =>
    if sender ≠ d.guarantorAddress then .reject .NotGuarantor
    else
      match d.buyerAddress with
      | none => .reject .NotFunded
      | some buyer => .accept none [⟨buyer, d.dealAmount, d.assetAddress⟩]

/-- Concrete funded token deal (seller 2, guarantor 3, buyer 4, asset 7,
template 9) used to instantiate the approve settlement theorem. -/
def sampleA : Deal := ⟨1, 2, 3, ton 5, 5000, some 7, some 9, some 4⟩

/-- Concrete funded native deal used to instantiate the cancel refund
theorem. -/
def sampleB : Deal := ⟨2, 2, 3, ton 1, 1, none, none, some 4⟩

/-- Concrete funded native deal used to instantiate the exactly-once
funding theorem. -/
def sampleC : Deal := ⟨3, 2, 3, ton 1, 1, none, none, some 4⟩

/-- Concrete unfunded token deal used to instantiate the notification
sender-check theorem. -/
def sampleD : Deal := ⟨4, 2, 3, ton 5, 1, some 7, some 9, none⟩

/-- Concrete unfunded native deal used for the guard-order analysis of
approve and cancel. -/
def sampleF : Deal := ⟨6, 2, 3, ton 1, 1, none, none, none⟩

/-- Concrete funded token deal used to instantiate the low-message-value
approve theorem. -/
def sampleG : Deal := ⟨7, 2, 3, ton 5, 1, some 7, some 9, some 4⟩

/-- Concrete funded token deal used for the wallet-code-update check
analysis. -/
def sampleH : Deal := ⟨8, 2, 3, ton 5, 1, some 7, some 9, some 4⟩

/-- Concrete funded token deal used to instantiate the cancel
value-independence theorem. -/
def sampleJ : Deal := ⟨10, 2, 3, ton 5, 1, some 7, some 9, some 4⟩

/-- C1: a successful Approve sent by the guarantor on a funded deal of
amount `A` and royalty `R` produces exactly two outbound transfers,
`A - R` to the seller and `R` to the guarantor, both denominated in the
deal's configured asset, and the Deal is destroyed (post-state `none`)
immediately afterward. -/
theorem approve_pays_seller_and_guarantor_then_destroys
    (self : Addr) (d : Deal) (v : Nat)
    (hf : d.isFunded = true) (hv : approveGasThreshold d ≤ v) :
    escrowStep self d (.approve d.guarantorAddress v) =
      .accept none
        [⟨d.sellerAddress, d.dealAmount - d.getCalculateRoyaltyAmount, d.assetAddress⟩,
         ⟨d.guarantorAddress, d.getCalculateRoyaltyAmount, d.assetAddress⟩] := by
  have h1 : ¬ v < approveGasThreshold d := Nat.not_lt.mpr hv
  simp [escrowStep, hf, h1]

/-- Witness for C1: the approve settlement theorem applied to a concrete
funded token deal with 1 coin attached. -/
theorem approve_pays_seller_and_guarantor_then_destroys_witness :
    escrowStep 0 sampleA (.approve sampleA.guarantorAddress (ton 1)) =
      .accept none
        [⟨sampleA.sellerAddress,
          sampleA.dealAmount - sampleA.getCalculateRoyaltyAmount, sampleA.assetAddress⟩,
         ⟨sampleA.guarantorAddress, sampleA.getCalculateRoyaltyAmount,
          sampleA.assetAddress⟩] :=
  approve_pays_seller_and_guarantor_then_destroys 0 sampleA (ton 1)
    (by decide) (by decide)

/-- C2: a successful Cancel sent by the guarantor on a funded deal
produces exactly one outbound transfer of the full deal amount to the
buyer, in the configured asset, and the Deal is destroyed afterward. -/
theorem cancel_refunds_buyer_and_destroys
    (self : Addr) (d : Deal) (b : Addr) (v : Nat)
    (hb : d.buyerAddress = some b) :
    escrowStep self d (.cancel d.guarantorAddress v) =
      .accept none [⟨b, d.dealAmount, d.assetAddress⟩] := by
  simp [escrowStep, hb]

/-- Witness for C2: the cancel refund theorem applied to a concrete
funded native deal. -/
theorem cancel_refunds_buyer_and_destroys_witness :
    escrowStep 0 sampleB (.cancel sampleB.guarantorAddress (ton 1)) =
      .accept none [⟨4, sampleB.dealAmount, sampleB.assetAddress⟩] :=
  cancel_refunds_buyer_and_destroys 0 sampleB 4 (ton 1) rfl

/-- C3: once `buyerAddress` is set, every further funding attempt
(native funding message or token transfer notification) is rejected
with `AlreadyFunded` (numeric code 33704) leaving the state unchanged,
and every transition that leaves the Deal alive preserves the stored
buyer, so `buyerAddress` goes from `none` to set at most once and is
never reset. -/
theorem funding_happens_exactly_once (self : Addr) (d : Deal) (b : Addr)
    (hb : d.buyerAddress = some b) :
    (∀ s v, escrowStep self d (.funding s v) = .reject .AlreadyFunded)
      ∧ (∀ s a f, escrowStep self d (.tokenNotification s a f) = .reject .AlreadyFunded)
      ∧ (∀ m d2 outs, escrowStep self d m = .accept (some d2) outs →
          d2.buyerAddress = some b)
      ∧ exitCodeNum .AlreadyFunded = some 33704 := by
  have hf : d.isFunded = true := by simp [Deal.isFunded, hb]
  refine ⟨?_, ?_, ?_, rfl⟩
  · intro s v; simp [escrowStep, hf]
  · intro s a f; simp [escrowStep, hf]
  · intro m d2 outs h
    cases m <;> simp only [escrowStep] at h <;> (repeat' split at h) <;>
      simp_all [Deal.isFunded]

/-- Witness for C3: the exactly-once funding theorem applied to a
concrete funded native deal. -/
theorem funding_happens_exactly_once_witness :
    escrowStep 0 sampleC (.funding 5 (ton 1)) = .reject .AlreadyFunded :=
  (funding_happens_exactly_once 0 sampleC 4 rfl).1 5 (ton 1)

/-- C4: on a token deal, a token transfer notification is accepted only
when its direct sender is the escrow's own deterministically derived
token wallet; from any other direct sender it is rejected with
`NotificationSenderMismatch` (numeric code 37726) regardless of the
embedded forgeable `from` field, leaving the deal unfunded. -/
theorem notification_requires_derived_wallet (self : Addr) (d : Deal)
    (asset : Addr) (template : Code)
    (ha : d.assetAddress = some asset) (ht : d.tokenWalletTemplate = some template)
    (hnf : d.isFunded = false) :
    (∀ s amt f, s ≠ derivedWalletAddress asset self template →
        escrowStep self d (.tokenNotification s amt f) =
          .reject .NotificationSenderMismatch)
      ∧ (∀ s amt f st outs,
          escrowStep self d (.tokenNotification s amt f) = .accept st outs →
            s = derivedWalletAddress asset self template)
      ∧ exitCodeNum .NotificationSenderMismatch = some 37726 := by
  refine ⟨?_, ?_, rfl⟩
  · intro s amt f hs
    simp [escrowStep, hnf, ha, ht, hs]
  · intro s amt f st outs h
    by_contra hs
    simp [escrowStep, hnf, ha, ht, hs] at h

/-- Witness for C4: the notification sender-check theorem applied to a
concrete unfunded token deal and a non-wallet sender with a forged
embedded buyer. -/
theorem notification_requires_derived_wallet_witness :
    escrowStep 0 sampleD (.tokenNotification 5 (ton 5) 4) =
      .reject .NotificationSenderMismatch :=
  (notification_requires_derived_wallet 0 sampleD 7 9 rfl rfl rfl).1
    5 (ton 5) 4 (by decide)

/-- C5: the royalty query equals
`dealAmount * min(royaltyPercentPpm, 90000) / 100000` with truncating
integer division, and in particular never exceeds 90 percent of the
deal amount, for every stored rate including rates above 100 percent. -/
theorem royalty_formula_and_ninety_percent_cap (d : Deal) :
    d.getCalculateRoyaltyAmount
        = d.dealAmount * min d.guarantorRoyaltyPercent 90000 / 100000
      ∧ d.getCalculateRoyaltyAmount ≤ d.dealAmount * 9 / 10 := by
  refine ⟨rfl, ?_⟩
  have h3 : d.dealAmount * min d.guarantorRoyaltyPercent 90000 / 100000 * 10 * 10000
      ≤ d.dealAmount * 9 * 10000 :=
    calc d.dealAmount * min d.guarantorRoyaltyPercent 90000 / 100000 * 10 * 10000
        = d.dealAmount * min d.guarantorRoyaltyPercent 90000 / 100000 * 100000 := by
          ring
      _ ≤ d.dealAmount * min d.guarantorRoyaltyPercent 90000 :=
          Nat.div_mul_le_self _ _
      _ ≤ d.dealAmount * 90000 :=
          Nat.mul_le_mul_left _ (min_le_right _ _)
      _ = d.dealAmount * 9 * 10000 := by ring
  have h4 : d.dealAmount * min d.guarantorRoyaltyPercent 90000 / 100000 * 10
      ≤ d.dealAmount * 9 :=
    Nat.le_of_mul_le_mul_right h3 (by norm_num)
  exact (Nat.le_div_iff_mul_le (by norm_num)).mpr h4

/-- C6 counterexample: an Approve on an unfunded deal from a sender that
is not the guarantor is rejected with `NotGuarantor`, not with
`NotFunded` as the claim asserts for every sender: the authorization
check precedes the funding check. -/
theorem approve_unfunded_nonguarantor_counterexample :
    escrowStep 0 sampleF (.approve 2 (ton 1)) = .reject .NotGuarantor
      ∧ escrowStep 0 sampleF (.approve 2 (ton 1)) ≠ .reject .NotFunded := by
  constructor
  · rfl
  · decide

/-- C6 (amended): Approve and Cancel are rejected with `NotGuarantor`
(numeric code 21150) for every non-guarantor sender regardless of
funding state, and with `NotFunded` (numeric code 14215) when the
guarantor sends them before funding; every rejection leaves the state
unchanged. -/
theorem approve_cancel_guard_checks (self : Addr) (d : Deal) :
    (∀ s v, s ≠ d.guarantorAddress →
        escrowStep self d (.approve s v) = .reject .NotGuarantor
          ∧ escrowStep self d (.cancel s v) = .reject .NotGuarantor)
      ∧ (d.isFunded = false → ∀ v,
          escrowStep self d (.approve d.guarantorAddress v) = .reject .NotFunded
            ∧ escrowStep self d (.cancel d.guarantorAddress v) = .reject .NotFunded)
      ∧ exitCodeNum .NotGuarantor = some 21150
      ∧ exitCodeNum .NotFunded = some 14215 := by
  refine ⟨?_, ?_, rfl, rfl⟩
  · intro s v hs
    exact ⟨by simp [escrowStep, hs], by simp [escrowStep, hs]⟩
  · intro hnf v
    have hnone : d.buyerAddress = none := by
      simpa [Deal.isFunded, Option.isSome_iff_exists] using hnf
    exact ⟨by simp [escrowStep, Deal.isFunded, hnone], by simp [escrowStep, hnone]⟩

/-- Witness for the amended C6: both guard rejections at concrete
inputs on an unfunded native deal. -/
theorem approve_cancel_guard_checks_witness :
    escrowStep 0 sampleF (.approve 2 5) = .reject .NotGuarantor
      ∧ escrowStep 0 sampleF (.cancel 3 5) = .reject .NotFunded :=
  ⟨((approve_cancel_guard_checks 0 sampleF).1 2 5 (by decide)).1,
   ((approve_cancel_guard_checks 0 sampleF).2.1 (by decide) 5).2⟩

/-- C7: an Approve from the guarantor on a funded deal with attached
value below the sizing threshold is rejected with `LowMessageValue`
(numeric code 5357) and schedules no transfer, leaving the deal funded,
and a retried Approve with sufficient attached value succeeds with the
normal two-transfer settlement. -/
theorem approve_low_value_rejected_then_retry_succeeds
    (self : Addr) (d : Deal) (v v2 : Nat)
    (hf : d.isFunded = true) (hv : v < approveGasThreshold d)
    (hv2 : approveGasThreshold d ≤ v2) :
    escrowStep self d (.approve d.guarantorAddress v) = .reject .LowMessageValue
      ∧ exitCodeNum .LowMessageValue = some 5357
      ∧ escrowStep self d (.approve d.guarantorAddress v2) =
          .accept none
            [⟨d.sellerAddress, d.dealAmount - d.getCalculateRoyaltyAmount,
              d.assetAddress⟩,
             ⟨d.guarantorAddress, d.getCalculateRoyaltyAmount, d.assetAddress⟩] := by
  have h2 : ¬ v2 < approveGasThreshold d := Nat.not_lt.mpr hv2
  exact ⟨by simp [escrowStep, hf, hv], rfl, by simp [escrowStep, hf, h2]⟩

/-- Witness for C7: the low-value rejection applied to a concrete
funded token deal with 0.05 coin attached (below the 0.1 threshold). -/
theorem approve_low_value_rejected_then_retry_succeeds_witness :
    escrowStep 0 sampleG (.approve sampleG.guarantorAddress 50000000) =
      .reject .LowMessageValue :=
  (approve_low_value_rejected_then_retry_succeeds 0 sampleG 50000000 (ton 1)
    (by decide) (by decide) (by decide)).1

/-- C8 counterexample: an UpdateWalletCode on a funded token deal from a
sender that is not the seller is rejected with `NotSeller`, not with
`AlreadyFunded` as the claim asserts for every sender: the seller check
precedes the funded check. -/
theorem updateWalletCode_funded_nonseller_counterexample :
    escrowStep 0 sampleH (.updateWalletCode 42 11) = .reject .NotSeller
      ∧ escrowStep 0 sampleH (.updateWalletCode 42 11) ≠ .reject .AlreadyFunded := by
  constructor
  · rfl
  · decide

/-- C8 (amended): UpdateWalletCode is rejected with `WrongAssetType`
(numeric code 52368) when the deal has no token asset; otherwise it is
rejected with `NotSeller` for any non-seller sender regardless of
funding state, rejected with `AlreadyFunded` (numeric code 33704) when
the seller sends it after funding, and on success from the seller
before funding it replaces the stored wallet-code template. -/
theorem updateWalletCode_checks (self : Addr) (d : Deal) :
    (d.assetAddress = none → ∀ s c,
        escrowStep self d (.updateWalletCode s c) = .reject .WrongAssetType)
      ∧ (∀ s c, d.assetAddress.isSome = true → s ≠ d.sellerAddress →
          escrowStep self d (.updateWalletCode s c) = .reject .NotSeller)
      ∧ (d.assetAddress.isSome = true → d.isFunded = true → ∀ c,
          escrowStep self d (.updateWalletCode d.sellerAddress c) =
            .reject .AlreadyFunded)
      ∧ (d.assetAddress.isSome = true → d.isFunded = false → ∀ c,
          escrowStep self d (.updateWalletCode d.sellerAddress c) =
            .accept (some { d with tokenWalletTemplate := some c }) [])
      ∧ exitCodeNum .WrongAssetType = some 52368
      ∧ exitCodeNum .AlreadyFunded = some 33704 := by
  refine ⟨?_, ?_, ?_, ?_, rfl, rfl⟩
  · intro ha s c; simp [escrowStep, ha]
  · intro s c ha hs
    obtain ⟨a, ha'⟩ := Option.isSome_iff_exists.mp ha
    simp [escrowStep, ha', hs]
  · intro ha hf c
    obtain ⟨a, ha'⟩ := Option.isSome_iff_exists.mp ha
    simp [escrowStep, ha', hf]
  · intro ha hnf c
    obtain ⟨a, ha'⟩ := Option.isSome_iff_exists.mp ha
    simp [escrowStep, ha', hnf]

/-- Witness for the amended C8: the funded seller rejection at a
concrete input on a funded token deal. -/
theorem updateWalletCode_checks_witness :
    escrowStep 0 sampleH (.updateWalletCode sampleH.sellerAddress 11) =
      .reject .AlreadyFunded :=
  (updateWalletCode_checks 0 sampleH).2.2.1 (by decide) (by decide) 11

/-- C9: on a 10-coin deal at 5000 ppm the royalty is half a coin (5
percent of 10), and on a 5-coin deal at 105000 ppm it is 4.5 coins
(clamped to 90 percent); amounts in smallest units. -/
theorem royalty_concrete_values :
    2 * calculateRoyaltyAmount (ton 10) 5000 = ton 1
      ∧ 2 * calculateRoyaltyAmount (ton 5) 105000 = 9 * ton 1 := by
  constructor <;> rfl

/-- C10: Cancel performs no attached-value sufficiency check: on a
funded token deal the guarantor's Cancel succeeds at every attached
value, in particular at 0.05 coin, which is below the threshold at
which Approve on the same deal is rejected with `LowMessageValue`; and
a Cancel rejection is always `NotGuarantor` or `NotFunded`. -/
theorem cancel_has_no_value_check (self : Addr) (d : Deal) (b : Addr)
    (hb : d.buyerAddress = some b) (ha : d.assetAddress.isSome = true) :
    (∀ v, escrowStep self d (.cancel d.guarantorAddress v) =
        .accept none [⟨b, d.dealAmount, d.assetAddress⟩])
      ∧ 50000000 < approveGasThreshold d
      ∧ escrowStep self d (.approve d.guarantorAddress 50000000) =
          .reject .LowMessageValue
      ∧ (∀ (d2 : Deal) (s v : Nat) (c : ExitCode),
          escrowStep self d2 (.cancel s v) = .reject c →
            c = .NotGuarantor ∨ c = .NotFunded) := by
  obtain ⟨a, ha'⟩ := Option.isSome_iff_exists.mp ha
  have hf : d.isFunded = true := by simp [Deal.isFunded, hb]
  have hlow : (50000000 : Nat) < approveGasThreshold d := by
    simp [approveGasThreshold, ha']
  refine ⟨?_, hlow, ?_, ?_⟩
  · intro v; simp [escrowStep, hb]
  · simp [escrowStep, hf, hlow]
  · intro d2 s v c h
    by_cases hs : s = d2.guarantorAddress
    · cases hbuy : d2.buyerAddress <;> simp [escrowStep, hs, hbuy] at h
      simp [h.symm]
    · simp [escrowStep, hs] at h
      simp [h.symm]

/-- Witness for C10: the value-independent cancel applied to a concrete
funded token deal at the 0.05-coin attached value. -/
theorem cancel_has_no_value_check_witness :
    escrowStep 0 sampleJ (.cancel sampleJ.guarantorAddress 50000000) =
      .accept none [⟨4, sampleJ.dealAmount, sampleJ.assetAddress⟩] :=
  (cancel_has_no_value_check 0 sampleJ 4 rfl rfl).1 50000000

end Escrow
